import Mathlib

/-!
Verification of the data pipeline of the Canada wildfire dashboard
(`src/app.py`).  The script loads a CSV feed of satellite fire
detections, normalizes it (date coercion, dropping invalid rows, point
geometries, a derived `value` column), filters by a selected date, and
renders aggregates (satellite shares, hourly buckets) plus a CSV export.

The embedding below models one dataframe row as a structure whose
nullable columns are `Option` values, and each pandas operation of
`load_firms_data` (lines 13-20 of `app.py`) as a list transformation.
Machine floats of the feed are modelled as rationals; the date parser
models `pd.to_datetime(..., errors="coerce")`, which turns unparseable
strings into a null marker (`none`) instead of raising.
-/

/-- A calendar date, as produced by `.dt.date` on a pandas datetime column. -/
structure PDate where
  year : ℕ
  month : ℕ
  day : ℕ
deriving DecidableEq, Repr

/-- A pandas `Timestamp`: a calendar date plus a time of day in seconds.
`pd.to_datetime` on a date-only string yields midnight (`timeOfDay = 0`);
`.dt.date` discards `timeOfDay`. -/
structure Timestamp where
  date : PDate
  timeOfDay : ℕ
deriving DecidableEq, Repr

/-- Split a character list on a separator character; models splitting the
textual fields of the feed.  Always yields at least one (possibly empty)
group. -/
def splitOnChar (c : Char) : List Char → List (List Char)
  | [] => [[]]
  | x :: xs =>
    match splitOnChar c xs with
    | [] => [[]]
    | g :: gs => if x = c then [] :: g :: gs else (x :: g) :: gs

/-- Numeric value of a decimal digit character. -/
def digitVal (c : Char) : ℕ := c.toNat - 48

/-- Read a nonempty all-digit character list as a natural number;
any other input is rejected with `none`. -/
def digitsToNat (l : List Char) : Option ℕ :=
  if l.isEmpty then none
  else if l.all Char.isDigit then some (l.foldl (fun n c => 10 * n + digitVal c) 0)
  else none

/-- Parse a `YYYY-MM-DD` character list into a date, rejecting malformed
input with `none`. -/
def parseDate (l : List Char) : Option PDate :=
  match splitOnChar (Char.ofNat 45) l with
  | [y, m, d] =>
    match digitsToNat y, digitsToNat m, digitsToNat d with
    | some yv, some mv, some dv =>
      if 1 ≤ mv ∧ mv ≤ 12 ∧ 1 ≤ dv ∧ dv ≤ 31 then some ⟨yv, mv, dv⟩ else none
    | _, _, _ => none
  | _ => none

/-- Parse an `HH:MM:SS` character list into seconds past midnight,
rejecting malformed input with `none`. -/
def parseTime (l : List Char) : Option ℕ :=
  match splitOnChar (Char.ofNat 58) l with
  | [h, m, s] =>
    match digitsToNat h, digitsToNat m, digitsToNat s with
    | some hv, some mv, some sv =>
      if hv ≤ 23 ∧ mv ≤ 59 ∧ sv ≤ 59 then some (3600 * hv + 60 * mv + sv) else none
    | _, _, _ => none
  | _ => none

/-- Model of the library call `pd.to_datetime(col, errors="coerce")` applied
to one cell, for the feed's date format (an ISO date with an optional
time of day).  A value that fails to parse becomes the null marker `none`
(pandas `NaT`); the function is total, so the parse step never raises. -/
def to_datetime_coerce (s : String) : Option Timestamp :=
  match splitOnChar (Char.ofNat 32) s.data with
  | [d] => (parseDate d).map (fun dv => ⟨dv, 0⟩)
  | [d, t] =>
    match parseDate d, parseTime t with
    | some dv, some tv => some ⟨dv, tv⟩
    | _, _ => none
  | _ => none

/-- A shapely `Point`, as built on line 17 of `app.py`:
`Point(xy) for xy in zip(df["longitude"], df["latitude"])`. -/
structure Point where
  x : ℚ
  y : ℚ
deriving DecidableEq, Repr

/-- One row of the raw CSV feed as read by `pd.read_csv` (line 14):
latitude and longitude may be missing (`NaN`), the acquisition date is
still an unparsed string. -/
structure RawRow where
  latitude : Option ℚ
  longitude : Option ℚ
  acq_date : String
  acq_time : ℕ
  brightness : ℚ
  confidence : ℚ
  satellite : String
deriving DecidableEq, Repr

/-- One row of the working dataframe: the date column has been coerced to
a nullable timestamp, and the `geometry` / `value` columns added by
lines 17 and 19 are `none` until those assignments run. -/
structure DfRow where
  latitude : Option ℚ
  longitude : Option ℚ
  acq_date : Option Timestamp
  acq_time : ℕ
  brightness : ℚ
  confidence : ℚ
  satellite : String
  geometry : Option Point
  value : Option ℚ
deriving DecidableEq, Repr

/-- A GeoDataFrame: rows plus the coordinate reference system tag set at
construction (line 18 of `app.py`). -/
structure GeoTable where
  rows : List DfRow
  crs : String
deriving DecidableEq, Repr

/-- Line 15 of `app.py`:
`df["acq_date"] = pd.to_datetime(df["acq_date"], errors="coerce")`,
applied to one row. -/
def toDatetimeCoerce (r : RawRow) : DfRow :=
  { latitude := r.latitude
    longitude := r.longitude
    acq_date := to_datetime_coerce r.acq_date
    acq_time := r.acq_time
    brightness := r.brightness
    confidence := r.confidence
    satellite := r.satellite
    geometry := none
    value := none }

/-- The predicate behind line 16 of `app.py`:
`df.dropna(subset=["latitude", "longitude", "acq_date"])` keeps a row
exactly when all three columns are non-null. -/
def rowNaFree (r : DfRow) : Bool :=
  r.latitude.isSome && r.longitude.isSome && r.acq_date.isSome

/-- Line 17 of `app.py`: build the point geometry of one row from
`(longitude, latitude)`, in that order. -/
def addGeometry (r : DfRow) : DfRow :=
  { r with
    geometry :=
      match r.longitude, r.latitude with
      | some lon, some lat => some ⟨lon, lat⟩
      | _, _ => none }

/-- Line 19 of `app.py`: `gdf["value"] = gdf["brightness"]`. -/
def addValue (r : DfRow) : DfRow :=
  { r with value := some r.brightness }

/-- Lines 13-20 of `app.py` (`load_firms_data`), as a function of the raw
feed content: coerce dates, drop rows with null latitude, longitude or
date, attach point geometries, tag the table with EPSG:4326, and copy
`brightness` into `value`. -/
def load_firms_data (feed : List RawRow) : GeoTable :=
  let df := feed.map toDatetimeCoerce
  let df := df.filter rowNaFree
  let df := df.map addGeometry
  let gdf : GeoTable := { rows := df, crs := "EPSG:4326" }
  { gdf with rows := gdf.rows.map addValue }

/-- Chronological comparison of calendar dates (Python `date` ordering):
lexicographic on year, then month, then day. -/
def dateLt (a b : PDate) : Bool :=
  a.year < b.year ||
    (a.year = b.year &&
      (a.month < b.month || (a.month = b.month && a.day < b.day)))

/-- Model of Python `max(iterable)` over dates: folds the comparison over
the list; the empty list has no maximum (`none`), which in Python is a
raised `ValueError`. -/
def pyMax : List PDate → Option PDate
  | [] => none
  | d :: ds => some (ds.foldl (fun a b => if dateLt a b then b else a) d)

/-- Line 28 of `app.py`: `available_dates = gdf["acq_date"].dt.date.unique()`
(the distinct calendar dates of the non-null date column). -/
def available_dates (gdf : GeoTable) : List PDate :=
  (gdf.rows.filterMap (fun r => r.acq_date.map Timestamp.date)).dedup

/-- Line 29 of `app.py`: the default of the date selector is
`max(available_dates)`; `none` marks the `ValueError` Python raises when
`available_dates` is empty. -/
def default_selected_date (gdf : GeoTable) : Option PDate :=
  pyMax (available_dates gdf)

/-- The row predicate of line 47 of `app.py`:
`gdf["acq_date"].dt.date == selected_date` — date-only comparison, with a
null timestamp comparing unequal to every date. -/
def rowMatchesDate (r : DfRow) (d : PDate) : Bool :=
  match r.acq_date with
  | some ts => decide (ts.date = d)
  | none => false

/-- Line 47 of `app.py`: `filtered = gdf[gdf["acq_date"].dt.date == selected_date]`. -/
def filterByDate (gdf : GeoTable) (d : PDate) : GeoTable :=
  { rows := gdf.rows.filter (fun r => rowMatchesDate r d), crs := gdf.crs }

set_option linter.unusedVariables false in
/-- Lines 26-29 and 47 of `app.py` as one function of the widget state:
the province and city selector values are read on lines 26-27 but the
filter on line 47 uses only the date. -/
def dashboard_filtered (gdf : GeoTable) (selected_date : PDate)
    (province city : String) : GeoTable :=
  filterByDate gdf selected_date

/-- The satellite column of the filtered frame, `filtered["satellite"]`. -/
def satColumn (rows : List DfRow) : List String :=
  rows.map (fun r => r.satellite)

/-- Line 76 of `app.py`:
`fire_by_sat = filtered["satellite"].value_counts(normalize=True) * 100` —
the distinct satellite identifiers ordered by descending count, each
paired with its share of the rows as a percentage. -/
def fire_by_sat (rows : List DfRow) : List (String × ℚ) :=
  let sats := satColumn rows
  (List.insertionSort (fun a b => sats.count b ≤ sats.count a) sats.dedup).map
    (fun s => (s, ((sats.count s : ℚ) / (sats.length : ℚ)) * 100))

/-- Rounding to two decimal places, as the percentages are displayed. -/
def round2 (q : ℚ) : ℚ := (round (q * 100) : ℤ) / 100

/-- Line 87 of `app.py`:
`hourly = filtered.groupby(filtered["acq_time"] // 100).size()` — the
distinct hour buckets `acq_time / 100` in ascending order, each paired
with the number of rows falling in it. -/
def hourly (rows : List DfRow) : List (ℕ × ℕ) :=
  let keys := List.insertionSort (· ≤ ·) (rows.map (fun r => r.acq_time / 100)).dedup
  keys.map (fun k => (k, rows.countP (fun r => r.acq_time / 100 == k)))

/-- CSV cell for a nullable rational column. -/
def optQToCsv : Option ℚ → String
  | some q => toString q
  | none => ""

/-- CSV cell for a calendar date. -/
def dateToCsv (d : PDate) : String :=
  toString d.year ++ "-" ++ toString d.month ++ "-" ++ toString d.day

/-- CSV cell for the nullable timestamp column. -/
def optTsToCsv : Option Timestamp → String
  | some ts => dateToCsv ts.date
  | none => ""

/-- CSV cell for the nullable geometry column. -/
def optPtToCsv : Option Point → String
  | some p => "POINT (" ++ toString p.x ++ " " ++ toString p.y ++ ")"
  | none => ""

/-- One CSV line of `filtered.to_csv(index=False)`: the row's cells joined
with commas. -/
def rowToCsv (r : DfRow) : String :=
  String.intercalate ","
    [optQToCsv r.latitude, optQToCsv r.longitude, optTsToCsv r.acq_date,
     toString r.acq_time, toString r.brightness, toString r.confidence,
     r.satellite, optPtToCsv r.geometry, optQToCsv r.value]

/-- Line 99 of `app.py`: `filtered.to_csv(index=False)` — a header line
followed by one line per row, each terminated by a newline. -/
def to_csv (rows : List DfRow) : String :=
  String.join
    ((("latitude,longitude,acq_date,acq_time,brightness,confidence," ++
       "satellite,geometry,value") :: rows.map rowToCsv).map (fun l => l ++ "\n"))

/-- Lines 98-101 of `app.py`: when the filtered frame is nonempty a
download button offers its CSV serialization under the name
`filtered_fires.csv`; when it is empty only a warning is shown and no
download artifact exists (`none`). -/
def export_section (filtered : GeoTable) : Option (String × String) :=
  if filtered.rows.isEmpty then none
  else some (to_csv filtered.rows, "filtered_fires.csv")

/-- A raw feed row with all fields valid, used to instantiate the theorems. -/
def demoRaw : RawRow :=
  { latitude := some 54, longitude := some (-106), acq_date := "2024-05-02",
    acq_time := 1345, brightness := 310, confidence := 85, satellite := "Aqua" }

/-- A one-row demo feed. -/
def demoFeed : List RawRow := [demoRaw]

/-- The normalized row `load_firms_data` produces from `demoRaw`. -/
def demoNormRow : DfRow :=
  { latitude := some 54, longitude := some (-106),
    acq_date := some ⟨⟨2024, 5, 2⟩, 0⟩, acq_time := 1345, brightness := 310,
    confidence := 85, satellite := "Aqua",
    geometry := some ⟨-106, 54⟩, value := some 310 }

/-- The normalized demo table. -/
def demoTable : GeoTable := { rows := [demoNormRow], crs := "EPSG:4326" }

/-- The acquisition date of the demo rows. -/
def demoDate : PDate := ⟨2024, 5, 2⟩

/-- A raw row with a missing latitude: it is dropped by normalization even
though every other field is valid. -/
def invalidRaw : RawRow :=
  { latitude := none, longitude := some (-106), acq_date := "2024-05-01",
    acq_time := 1200, brightness := 300, confidence := 80, satellite := "Aqua" }

/-- A feed in which no row survives validation. -/
def allInvalidFeed : List RawRow := [invalidRaw]

/-- Two rows whose acquisition times are the bucketing examples of the
spec: 1345 and 59. -/
def demoHourRows : List DfRow :=
  [{ latitude := some 54, longitude := some (-106),
     acq_date := some ⟨⟨2024, 5, 2⟩, 0⟩, acq_time := 1345, brightness := 310,
     confidence := 85, satellite := "Aqua", geometry := none, value := none },
   { latitude := some 55, longitude := some (-107),
     acq_date := some ⟨⟨2024, 5, 2⟩, 0⟩, acq_time := 59, brightness := 300,
     confidence := 80, satellite := "Terra", geometry := none, value := none }]

/-- The first demo row, with acquisition time 1345. -/
def demoHourRow : DfRow :=
  { latitude := some 54, longitude := some (-106),
    acq_date := some ⟨⟨2024, 5, 2⟩, 0⟩, acq_time := 1345, brightness := 310,
    confidence := 85, satellite := "Aqua", geometry := none, value := none }

/-- Three rows carrying the satellites of the spec's aggregation example:
two Aqua detections and one Terra detection. -/
def demoSatRows : List DfRow :=
  [{ latitude := some 54, longitude := some (-106),
     acq_date := some ⟨⟨2024, 5, 2⟩, 0⟩, acq_time := 1345, brightness := 310,
     confidence := 85, satellite := "Aqua", geometry := none, value := none },
   { latitude := some 55, longitude := some (-107),
     acq_date := some ⟨⟨2024, 5, 2⟩, 0⟩, acq_time := 59, brightness := 300,
     confidence := 80, satellite := "Aqua", geometry := none, value := none },
   { latitude := some 56, longitude := some (-108),
     acq_date := some ⟨⟨2024, 5, 2⟩, 0⟩, acq_time := 230, brightness := 295,
     confidence := 70, satellite := "Terra", geometry := none, value := none }]

/-- Membership in the normalized table, unfolded: a normalized row is the
image under geometry- and value-attachment of a date-coerced raw row that
survived `dropna`. -/
theorem mem_load_firms_data {feed : List RawRow} {r : DfRow} :
    r ∈ (load_firms_data feed).rows ↔
      ∃ b, (b ∈ feed.map toDatetimeCoerce ∧ rowNaFree b = true) ∧
        r = addValue (addGeometry b) := by
  simp only [load_firms_data, List.mem_map, List.mem_filter]
  constructor
  · rintro ⟨x, ⟨b, hb, rfl⟩, rfl⟩
    exact ⟨b, hb, rfl⟩
  · rintro ⟨b, hb, rfl⟩
    exact ⟨addGeometry b, ⟨b, hb, rfl⟩, rfl⟩

/-- C1: every row of the table returned by `load_firms_data` has non-null
latitude, non-null longitude, and a non-null (successfully parsed)
acquisition date; exactly the raw rows whose latitude, longitude, and
coerced date are all non-null are retained, so rows whose date string
fails to parse (coerced to `none`, never a raised error, because
`to_datetime_coerce` is total) are dropped. -/
theorem load_firms_data_rows_valid (feed : List RawRow) :
    (∀ r ∈ (load_firms_data feed).rows,
        r.latitude.isSome ∧ r.longitude.isSome ∧ r.acq_date.isSome) ∧
    (load_firms_data feed).rows.length =
      (feed.filter (fun raw => raw.latitude.isSome && raw.longitude.isSome &&
        (to_datetime_coerce raw.acq_date).isSome)).length := by
  constructor
  · intro r hr
    obtain ⟨b, ⟨-, hna⟩, rfl⟩ := mem_load_firms_data.mp hr
    simp only [rowNaFree, Bool.and_eq_true] at hna
    exact ⟨hna.1.1, hna.1.2, hna.2⟩
  · simp only [load_firms_data, List.length_map, List.filter_map]
    rfl

/-- C1 witness: the demo feed instantiates the row-validity theorem. -/
theorem load_firms_data_rows_valid_witness :
    demoNormRow ∈ (load_firms_data demoFeed).rows ∧
      (demoNormRow.latitude.isSome ∧ demoNormRow.longitude.isSome ∧
        demoNormRow.acq_date.isSome) := by
  have hmem : demoNormRow ∈ (load_firms_data demoFeed).rows := by decide
  exact ⟨hmem, (load_firms_data_rows_valid demoFeed).1 demoNormRow hmem⟩

/-- C3: the normalized table is tagged with EPSG:4326, and every retained
row's geometry is the point whose x is the row's longitude and whose y is
the row's latitude — the ordering is (longitude, latitude). -/
theorem load_firms_data_geometry (feed : List RawRow) :
    (load_firms_data feed).crs = "EPSG:4326" ∧
    ∀ r ∈ (load_firms_data feed).rows,
      ∃ lat lon, r.latitude = some lat ∧ r.longitude = some lon ∧
        r.geometry = some { x := lon, y := lat } := by
  refine ⟨rfl, fun r hr => ?_⟩
  obtain ⟨b, ⟨-, hna⟩, rfl⟩ := mem_load_firms_data.mp hr
  simp only [rowNaFree, Bool.and_eq_true, Option.isSome_iff_exists] at hna
  obtain ⟨⟨⟨lat, hlat⟩, ⟨lon, hlon⟩⟩, -⟩ := hna
  refine ⟨lat, lon, ?_, ?_, ?_⟩ <;>
    simp [addValue, addGeometry, hlat, hlon]

/-- C3 witness: the demo feed instantiates the geometry theorem. -/
theorem load_firms_data_geometry_witness :
    demoNormRow ∈ (load_firms_data demoFeed).rows ∧
      (∃ lat lon, demoNormRow.latitude = some lat ∧
        demoNormRow.longitude = some lon ∧
        demoNormRow.geometry = some { x := lon, y := lat }) := by
  have hmem : demoNormRow ∈ (load_firms_data demoFeed).rows := by decide
  exact ⟨hmem, (load_firms_data_geometry demoFeed).2 demoNormRow hmem⟩

/-- C6: after normalization, every row's `value` field is a (present) direct
copy of its `brightness` field. -/
theorem load_firms_data_value_eq_brightness (feed : List RawRow) :
    ∀ r ∈ (load_firms_data feed).rows, r.value = some r.brightness := by
  intro r hr
  obtain ⟨b, -, rfl⟩ := mem_load_firms_data.mp hr
  rfl

/-- C6 witness: the demo feed instantiates the value-copy theorem. -/
theorem load_firms_data_value_eq_brightness_witness :
    demoNormRow ∈ (load_firms_data demoFeed).rows ∧
      demoNormRow.value = some demoNormRow.brightness := by
  have hmem : demoNormRow ∈ (load_firms_data demoFeed).rows := by decide
  exact ⟨hmem, load_firms_data_value_eq_brightness demoFeed demoNormRow hmem⟩

/-- C5: normalization is deterministic in the feed content — `load_firms_data`
is a pure function of the raw rows (the cache only memoizes it), so equal
feed contents yield identical normalized tables. -/
theorem load_firms_data_deterministic (feed₁ feed₂ : List RawRow)
    (h : feed₁ = feed₂) : load_firms_data feed₁ = load_firms_data feed₂ := by
  rw [h]

/-- C5 witness: determinism instantiated at the demo feed. -/
theorem load_firms_data_deterministic_witness :
    load_firms_data demoFeed = load_firms_data demoFeed :=
  load_firms_data_deterministic demoFeed demoFeed rfl

/-- C2: date filtering is a pure projection — the filtered rows are a subset
of the table's rows, every returned row's acquisition date equals the
target date under date-only comparison (a row is kept for any time of
day on that date), and when no row matches the result is the empty list,
not an error. -/
theorem filterByDate_spec (gdf : GeoTable) (d : PDate) :
    (filterByDate gdf d).rows ⊆ gdf.rows ∧
    (∀ r ∈ (filterByDate gdf d).rows,
        ∃ ts, r.acq_date = some ts ∧ ts.date = d) ∧
    (∀ r ∈ gdf.rows, ∀ ts, r.acq_date = some ts → ts.date = d →
        r ∈ (filterByDate gdf d).rows) ∧
    ((∀ r ∈ gdf.rows, rowMatchesDate r d = false) →
        (filterByDate gdf d).rows = []) := by
  refine ⟨List.filter_subset' _, fun r hr => ?_, fun r hr ts hts hd => ?_, fun h => ?_⟩
  · obtain ⟨-, hm⟩ := List.mem_filter.mp hr
    unfold rowMatchesDate at hm
    cases hts : r.acq_date with
    | none => rw [hts] at hm; exact absurd hm (by simp)
    | some ts => rw [hts] at hm; exact ⟨ts, rfl, of_decide_eq_true hm⟩
  · refine List.mem_filter.mpr ⟨hr, ?_⟩
    unfold rowMatchesDate
    rw [hts]
    exact decide_eq_true hd
  · exact List.filter_eq_nil_iff.mpr (fun r hr => by rw [h r hr]; exact Bool.false_ne_true)

/-- C2 witness: filtering the demo table by the demo date instantiates the
projection theorem. -/
theorem filterByDate_spec_witness :
    demoNormRow ∈ (filterByDate demoTable demoDate).rows ∧
      (∃ ts, demoNormRow.acq_date = some ts ∧ ts.date = demoDate) := by
  have hmem : demoNormRow ∈ (filterByDate demoTable demoDate).rows := by decide
  exact ⟨hmem, (filterByDate_spec demoTable demoDate).2.1 demoNormRow hmem⟩

/-- C10: the filtered row set does not depend on the province or city
selector values — two dashboard runs over the same table and date that
differ only in those selections produce identical filtered tables. -/
theorem filtered_independent_of_province_city (gdf : GeoTable) (d : PDate)
    (p₁ c₁ p₂ c₂ : String) :
    dashboard_filtered gdf d p₁ c₁ = dashboard_filtered gdf d p₂ c₂ := rfl

/-- C4: on a feed with zero valid rows, normalization itself returns an
empty table (a valid result, as the spec requires), but the render cycle
then fails: the date selector default on line 29 of `app.py` is
`max(available_dates)`, and `pyMax` of the empty date list has no value —
modelling the `ValueError` Python raises there — so the cycle does not
complete without raising as claimed. -/
theorem all_invalid_feed_breaks_date_default :
    (load_firms_data allInvalidFeed).rows = [] ∧
    available_dates (load_firms_data allInvalidFeed) = [] ∧
    default_selected_date (load_firms_data allInvalidFeed) = none := by
  refine ⟨rfl, rfl, rfl⟩

/-- C7: hourly bucketing groups by integer division of the acquisition time
by 100 — every row's bucket `acq_time / 100` appears in the grouping
paired with the count of rows in that bucket, every entry of the grouping
counts exactly the rows whose `acq_time / 100` equals its key, and on the
spec's examples the times 1345 and 59 land in buckets 13 and 0. -/
theorem hourly_buckets (rows : List DfRow) :
    (∀ r ∈ rows,
        (r.acq_time / 100,
          rows.countP (fun x => x.acq_time / 100 == r.acq_time / 100)) ∈
          hourly rows) ∧
    (∀ kn ∈ hourly rows,
        kn.2 = rows.countP (fun x => x.acq_time / 100 == kn.1)) ∧
    hourly demoHourRows = [(0, 1), (13, 1)] := by
  refine ⟨fun r hr => ?_, fun kn hkn => ?_, by decide⟩
  · have hk : r.acq_time / 100 ∈ (rows.map (fun x => x.acq_time / 100)).dedup :=
      List.mem_dedup.mpr (List.mem_map_of_mem _ hr)
    have hk' :
        r.acq_time / 100 ∈
          List.insertionSort (· ≤ ·) (rows.map (fun x => x.acq_time / 100)).dedup :=
      (List.perm_insertionSort _ _).mem_iff.mpr hk
    exact List.mem_map_of_mem _ hk'
  · simp only [hourly, List.mem_map] at hkn
    obtain ⟨k, -, rfl⟩ := hkn
    rfl

/-- C7 witness: the theorem instantiated at the demo rows and the row with
acquisition time 1345. -/
theorem hourly_buckets_witness :
    demoHourRow ∈ demoHourRows ∧
      (demoHourRow.acq_time / 100,
        demoHourRows.countP
          (fun x => x.acq_time / 100 == demoHourRow.acq_time / 100)) ∈
        hourly demoHourRows := by
  have hmem : demoHourRow ∈ demoHourRows := by decide
  exact ⟨hmem, (hourly_buckets demoHourRows).1 demoHourRow hmem⟩

/-- C8: over a nonempty row set, satellite-share aggregation assigns each
satellite 100 times its fraction of the rows, the shares sum to exactly
100, and on the spec's example (satellites Aqua, Aqua, Terra) the shares
are 200/3 and 100/3, which display as 66.67 and 33.33 after rounding to
two decimals and still sum to 100. -/
theorem fire_by_sat_shares (rows : List DfRow) (h : rows ≠ []) :
    ((fire_by_sat rows).map Prod.snd).sum = 100 ∧
    (∀ sp ∈ fire_by_sat rows,
        sp.2 = (((satColumn rows).count sp.1 : ℚ) /
          ((satColumn rows).length : ℚ)) * 100) ∧
    (fire_by_sat demoSatRows = [("Aqua", 200 / 3), ("Terra", 100 / 3)] ∧
      round2 (200 / 3) = 6667 / 100 ∧ round2 (100 / 3) = 3333 / 100 ∧
      (6667 / 100 + 3333 / 100 : ℚ) = 100) := by
  have hn : ((satColumn rows).length : ℚ) ≠ 0 := by
    have hne : satColumn rows ≠ [] := by
      simpa [satColumn] using h
    exact Nat.cast_ne_zero.mpr (fun h0 => hne (List.length_eq_zero.mp h0))
  refine ⟨?_, fun sp hsp => ?_, ?_, ?_, ?_, by norm_num⟩
  · set sats := satColumn rows with hsats
    have h1 :
        ((fire_by_sat rows).map Prod.snd).sum =
          ((List.insertionSort (fun a b => sats.count b ≤ sats.count a)
              sats.dedup).map
            (fun s => ((sats.count s : ℚ) / (sats.length : ℚ)) * 100)).sum := by
      simp only [fire_by_sat, List.map_map, hsats]
      rfl
    have h2 :
        ((List.insertionSort (fun a b => sats.count b ≤ sats.count a)
            sats.dedup).map
          (fun s => ((sats.count s : ℚ) / (sats.length : ℚ)) * 100)).sum =
          ((sats.dedup).map
            (fun s => ((sats.count s : ℚ) / (sats.length : ℚ)) * 100)).sum :=
      ((List.perm_insertionSort _ _).map _).sum_eq
    have h3 :
        ((sats.dedup).map
          (fun s => ((sats.count s : ℚ) / (sats.length : ℚ)) * 100)).sum =
          ∑ a in sats.toFinset,
            ((sats.count a : ℚ) / (sats.length : ℚ)) * 100 := by
      rw [← List.sum_toFinset _ (List.nodup_dedup sats),
        List.toFinset.ext (fun x => List.mem_dedup)]
    have h4 :
        (∑ a in sats.toFinset,
          ((sats.count a : ℚ) / (sats.length : ℚ)) * 100) = 100 := by
      rw [← Finset.sum_mul, ← Finset.sum_div, ← Nat.cast_sum,
        List.sum_toFinset_count_eq_length, div_self hn, one_mul]
    rw [h1, h2, h3, h4]
  · simp only [fire_by_sat, List.mem_map] at hsp
    obtain ⟨s, -, rfl⟩ := hsp
    rfl
  · have hstep :
        fire_by_sat demoSatRows =
          [("Aqua", (((2 : ℕ) : ℚ) / ((3 : ℕ) : ℚ)) * 100),
           ("Terra", (((1 : ℕ) : ℚ) / ((3 : ℕ) : ℚ)) * 100)] := rfl
    rw [hstep]
    norm_num
  · norm_num [round2, round_eq]
  · norm_num [round2, round_eq]

/-- C8 witness: the share theorem instantiated at the Aqua/Aqua/Terra demo
rows. -/
theorem fire_by_sat_shares_witness :
    demoSatRows ≠ [] ∧ ((fire_by_sat demoSatRows).map Prod.snd).sum = 100 :=
  ⟨by decide, (fire_by_sat_shares demoSatRows (by decide)).1⟩

/-- C9: the CSV export of an empty filtered row set produces no download
artifact (and, being a total function, never raises), while for a
nonempty row set it offers exactly the serialization of the filtered rows
under the filename `filtered_fires.csv`. -/
theorem export_section_spec (gdf : GeoTable) :
    (gdf.rows = [] → export_section gdf = none) ∧
    (gdf.rows ≠ [] →
        export_section gdf = some (to_csv gdf.rows, "filtered_fires.csv")) := by
  constructor
  · intro h
    simp [export_section, h]
  · intro h
    simp [export_section, h]

/-- C9 witness: the export theorem instantiated at an empty table and at
the demo table. -/
theorem export_section_spec_witness :
    export_section { rows := [], crs := "EPSG:4326" } = none ∧
      export_section demoTable =
        some (to_csv demoTable.rows, "filtered_fires.csv") :=
  ⟨(export_section_spec { rows := [], crs := "EPSG:4326" }).1 rfl,
   (export_section_spec demoTable).2 (by decide)⟩

